import Mathlib

/-!
Verification of the relational data-access layer of the bakky repository
(`app/infrastructure/relational/data.py`, `engine.py`, `utils.py`),
against a small model of the PostgreSQL / psycopg execution semantics
that the code runs on.

Driver facts reflected by the model (psycopg 3):

* `DBEngine.connect` (engine.py, line 46) opens the connection with
  `autocommit=True`.  On such a connection every successfully executed
  statement is committed immediately, and `Connection.commit` /
  `Connection.rollback` are no-ops unless an explicit transaction block
  was opened.  `upsert_data` never opens one, so its statements are
  durable as soon as they execute; its `rollback()` calls restore
  nothing.  The model therefore threads the table state through the
  statements directly and records the (ineffective) rollback/commit
  calls only in an effect trace.
* `Connection.transaction()` (used by `insert_data` and
  `execute_query`) opens an explicit transaction block that commits on
  normal exit and rolls back when an exception escapes the block.  The
  model of `insert_data` restores the entry state whenever its
  `executemany` fails.
-/

namespace Bakky

/-- Column values: the engine treats values as opaque scalars, so the
model only needs integers, strings and SQL NULL. -/
inductive Val where
  | int (n : Int)
  | vstr (s : String)
  | null
deriving DecidableEq, Repr

/-- A row as the Python code sees it: an insertion-ordered dictionary
from column names to values. -/
abbrev Row := List (String × Val)

/-- Python `row.keys()` as a list (dicts preserve insertion order). -/
def Row.keys (r : Row) : List String := r.map fun p => p.1

/-- Python `", ".join(xs)`. -/
def joinComma (xs : List String) : String := String.intercalate ", " xs

/-- The first characters of the second list are exactly the first
list. -/
def headMatches : List Char → List Char → Bool
  | [], _ => true
  | _ :: _, [] => false
  | a :: as, b :: bs => a == b && headMatches as bs

/-- Occurrence of `needle` somewhere in the list. -/
def hasSubChars (needle : List Char) : List Char → Bool
  | [] => needle.isEmpty
  | c :: rest => headMatches needle (c :: rest) || hasSubChars needle rest

/-- Model of the Python substring test `needle in hay` (used with the
literal needle `unique constraint`). -/
def containsSub (hay needle : String) : Bool :=
  hasSubChars needle.toList hay.toList

/-- First-occurrence split on a dot: the model of Python
`table_name.split(".", 1)` guarded by the test `"." in table_name`.
Returns `none` when the string has no dot. -/
def splitDot1 : List Char → Option (List Char × List Char)
  | [] => none
  | c :: rest =>
    if c = '.' then some ([], rest)
    else (splitDot1 rest).map fun p => (c :: p.1, p.2)

/-- Schema/table resolution used by `delete_data` (data.py 268-271) and
`upsert_data` (data.py 406-409): split on the first dot, defaulting the
schema to `public`. -/
def splitTableSchema (table_name : String) : String × String :=
  match splitDot1 table_name.toList with
  | some p => (String.mk p.1, String.mk p.2)
  | none => ("public", table_name)

/-- The database state for one target table, together with the catalog
metadata that the introspection helpers of `utils.py` would report for
it (`get_primary_key_columns`, lines 204-242, and
`get_table_serial_columns`, lines 245-284, read the system catalogs of
the live database; the model carries their answers as fields). -/
structure Table where
  /-- columns of the (single modelled) unique index on the table -/
  uniqueCols : List String
  /-- NOT NULL columns that have no default value -/
  notNullCols : List String
  /-- primary-key columns, as reported by `get_primary_key_columns` -/
  pkCols : List String
  /-- serial columns, as reported by `get_table_serial_columns` -/
  serialCols : List String
  rows : List Row
deriving DecidableEq, Repr

/-- Driver error text for a NOT NULL violation (does not contain the
substring `unique constraint`). -/
def notNullMsg : String := "null value in column violates not-null constraint"

/-- Driver error text for a unique violation raised by a plain insert. -/
def dupKeyMsg : String := "duplicate key value violates unique constraint"

/-- Driver error text when an ON CONFLICT target matches no index. -/
def noMatchingConstraintMsg : String :=
  "there is no unique or exclusion constraint matching the ON CONFLICT specification"

/-- Inserting `r` would leave a NOT NULL column (without default) null
or unset. -/
def violatesNotNull (t : Table) (r : Row) : Bool :=
  t.notNullCols.any fun c =>
    match r.lookup c with
    | some Val.null => true
    | none => true
    | some _ => false

/-- The values `r` takes on the columns `cols`. -/
def keyVals (cols : List String) (r : Row) : List (Option Val) :=
  cols.map fun c => r.lookup c

/-- All key values present and non-null (SQL unique indexes never
conflict on NULLs). -/
def keyComplete (cols : List String) (r : Row) : Bool :=
  cols.all fun c =>
    match r.lookup c with
    | some Val.null => false
    | none => false
    | some _ => true

/-- Inserting `r` hits the table's unique index. -/
def hasConflict (t : Table) (r : Row) : Bool :=
  !t.uniqueCols.isEmpty && keyComplete t.uniqueCols r &&
    t.rows.any fun r2 => keyVals t.uniqueCols r2 == keyVals t.uniqueCols r

/-- Execution model of `INSERT ... ON CONFLICT DO NOTHING RETURNING *`:
either a driver error, or the list of returned rows together with the
new table state (autocommit: the effect is durable immediately). -/
def execInsertDoNothing (t : Table) (r : Row) : Except String (List Row × Table) :=
  if violatesNotNull t r then Except.error notNullMsg
  else if hasConflict t r then Except.ok ([], t)
  else Except.ok ([r], { t with rows := t.rows ++ [r] })

/-- The `DO UPDATE SET c = EXCLUDED.c` assignments for every column of
the incoming row outside `uniq`, applied to the stored conflicting
row. -/
def applyUpdateSet (uniq : List String) (incoming stored : Row) : Row :=
  stored.map fun p =>
    if uniq.contains p.1 then p
    else
      match incoming.lookup p.1 with
      | some v => (p.1, v)
      | none => p

/-- Two column lists name the same column set. -/
def sameColumnSet (a b : List String) : Bool :=
  (a.all fun c => b.contains c) && b.all fun c => a.contains c

/-- Execution model of `INSERT ... ON CONFLICT (<uniq>) DO UPDATE SET
<c = EXCLUDED.c, ...>`.  Postgres rejects the statement when the
conflict target matches no unique index.  The sequence-generated values
of serial DEFAULT placeholders are not modelled (no settled claim
depends on them): a no-conflict insert through this path stores the
incoming row as given. -/
def updateConflicting (t : Table) (uniq : List String) (r : Row) : List Row :=
  t.rows.map fun r2 =>
    if keyVals t.uniqueCols r2 == keyVals t.uniqueCols r then applyUpdateSet uniq r r2
    else r2

def execInsertDoUpdate (t : Table) (uniq : List String) (r : Row) : Except String Table :=
  if !sameColumnSet uniq t.uniqueCols then Except.error noMatchingConstraintMsg
  else if violatesNotNull t r then Except.error notNullMsg
  else if hasConflict t r then Except.ok { t with rows := updateConflicting t uniq r }
  else Except.ok { t with rows := t.rows ++ [r] }

/-- The `unique_columns` argument of `insert_data` / `upsert_data`:
`None`, a single string, or a list of strings. -/
inductive UniqueArg where
  | noneArg
  | strArg (s : String)
  | listArg (l : List String)
deriving DecidableEq, Repr

/-- Lines 70-71 and 400-403 of data.py: wrap a bare string in a list
and replace `None` by the empty list. -/
def normalizeUnique : UniqueArg → List String
  | UniqueArg.noneArg => []
  | UniqueArg.strArg s => [s]
  | UniqueArg.listArg l => l

/-- Translation of `build_conflicts_query` (data.py 17-33). -/
def build_conflicts_query (unique_columns : List String) (columns : List String)
    (optional_updates : Option (List (String × String))) : String :=
  let unique_columns_str := joinComma unique_columns
  let update_statements :=
    match optional_updates with
    | none =>
      joinComma ((columns.filter fun col => !unique_columns.contains col).map
        fun col => col ++ "=EXCLUDED." ++ col)
    | some upd => joinComma (upd.map fun p => p.1 ++ "=" ++ p.2)
  "ON CONFLICT (" ++ unique_columns_str ++ ") DO UPDATE SET " ++ update_statements

/-- The parameterized statement built by the `DataType.DICT` branch of
`insert_data` (data.py 73-90).  The code keeps the trailing space of
the `INSERT INTO %s ` template and adds another one in the f-string,
and appends the conflict clause with no separating space. -/
def insertQueryDict (table_name : String) (columns : List String)
    (unique_columns : UniqueArg) (optional_updates : Option (List (String × String))) : String :=
  let insert_statement := "INSERT INTO " ++ table_name ++ " "
  let column_names := joinComma columns
  let placeholders := joinComma (columns.map fun _ => "%s")
  let base := insert_statement ++ " (" ++ column_names ++ ") VALUES (" ++ placeholders ++ ")"
  let ucs := normalizeUnique unique_columns
  if !ucs.isEmpty then base ++ build_conflicts_query ucs columns optional_updates else base

/-- A Python object appearing in the iterated data: a row dictionary or
a bare string (the latter arises when the column mapping produced by a
polars `to_dict()` is iterated, yielding column names). -/
inductive PyObj where
  | row (r : Row)
  | pystr (s : String)
deriving DecidableEq, Repr

/-- Python `isinstance(obj, dict)`. -/
def PyObj.isRow : PyObj → Bool
  | PyObj.row _ => true
  | PyObj.pystr _ => false

def PyObj.asRow : PyObj → Option Row
  | PyObj.row r => some r
  | PyObj.pystr _ => none

/-- Observable result of an `insert_data` call. -/
inductive InsResult where
  /-- the boolean return value -/
  | ret (b : Bool)
  /-- uncaught `KeyError` while building the value tuples (data.py 93) -/
  | keyError
deriving DecidableEq, Repr

structure InsOut where
  result : InsResult
  table : Table
deriving DecidableEq, Repr

/-- Python `tuple(row[col] for col in columns)`: `none` models the
`KeyError` raised when the row lacks one of the columns. -/
def lookupAll (r : Row) : List String → Option (List Val)
  | [] => some []
  | c :: cs =>
    match r.lookup c with
    | none => none
    | some v =>
      match lookupAll r cs with
      | none => none
      | some vs => some (v :: vs)

/-- The list comprehension at data.py line 93, building one value tuple
per row from the first row's columns. -/
def buildValues (columns : List String) : List Row → Option (List (List Val))
  | [] => some []
  | r :: rs =>
    match lookupAll r columns with
    | none => none
    | some vs =>
      match buildValues columns rs with
      | none => none
      | some vss => some (vs :: vss)

/-- Conflict policy carried by the built insert statement. -/
inductive ConflictPolicy where
  | plain
  | doUpdate (uniq : List String)
deriving DecidableEq, Repr

/-- The policy of the statement `insert_data` builds: a conflict clause
is present exactly when the normalized `unique_columns` is non-empty
(same condition as the string-level append at data.py 89-90).  The
executed update assignments are the default EXCLUDED-based ones;
caller-supplied update expressions are a string-level feature of
`build_conflicts_query` that no settled claim executes. -/
def conflictPolicyOf (unique_columns : UniqueArg) : ConflictPolicy :=
  if (normalizeUnique unique_columns).isEmpty then ConflictPolicy.plain
  else ConflictPolicy.doUpdate (normalizeUnique unique_columns)

/-- One `execute` of the built insert statement on one value tuple. -/
def execInsertRow (policy : ConflictPolicy) (columns : List String) (t : Table)
    (vals : List Val) : Except String Table :=
  let r : Row := columns.zip vals
  match policy with
  | ConflictPolicy.plain =>
    if violatesNotNull t r then Except.error notNullMsg
    else if hasConflict t r then Except.error dupKeyMsg
    else Except.ok { t with rows := t.rows ++ [r] }
  | ConflictPolicy.doUpdate uniq => execInsertDoUpdate t uniq r

/-- `cur.executemany` over the value tuples. -/
def execMany (policy : ConflictPolicy) (columns : List String) (t : Table) :
    List (List Val) → Except String Table
  | [] => Except.ok t
  | v :: vs =>
    match execInsertRow policy columns t v with
    | Except.ok t1 => execMany policy columns t1 vs
    | Except.error e => Except.error e

/-- `insert_data` with `data_type=DataType.DICT` (data.py 76-105).
The check at line 78 rejects an empty or non-list-of-dicts input with
`return False`; the value tuples are built from the first row's
columns before the connection is opened, so a missing key surfaces as
an uncaught `KeyError` with the table untouched; the `executemany`
runs inside `conn.transaction()`, so a driver error rolls the table
back to its state at entry. -/
def insert_data_dict (t : Table) (data : List PyObj) (unique_columns : UniqueArg) : InsOut :=
  if data.isEmpty || !data.all PyObj.isRow then ⟨InsResult.ret false, t⟩
  else
    match data.filterMap PyObj.asRow with
    | [] => ⟨InsResult.ret false, t⟩
    | r0 :: rest =>
      let columns := Row.keys r0
      match buildValues columns (r0 :: rest) with
      | none => ⟨InsResult.keyError, t⟩
      | some values =>
        match execMany (conflictPolicyOf unique_columns) columns t values with
        | Except.ok t1 => ⟨InsResult.ret true, t1⟩
        | Except.error _ => ⟨InsResult.ret false, t⟩

/-- A tabular frame (polars or pandas): fixed column schema, rows as
value tuples. -/
structure Frame where
  cols : List String
  frows : List (List Val)
deriving DecidableEq, Repr

/-- The dataframe branches of `insert_data` (data.py 108-172): polars
and pandas build the same statement shape and run the same
`executemany` inside `conn.transaction()`. -/
def insert_data_frame (t : Table) (f : Frame) (unique_columns : UniqueArg) : InsOut :=
  match execMany (conflictPolicyOf unique_columns) f.cols t f.frows with
  | Except.ok t1 => ⟨InsResult.ret true, t1⟩
  | Except.error _ => ⟨InsResult.ret false, t⟩

/-- Statement-level events, in execution order.  `rollback` and
`commit` record the calls at data.py 473/477/481 and 483; on the
autocommit connection they restore/flush nothing. -/
inductive Eff where
  | introspectPK
  | introspectSerial
  | connect
  | setval (col : String)
  | stmtInsert (q : String)
  | stmtUpdate (q : String)
  | rollback
  | commit
deriving DecidableEq, Repr

/-- The per-row insert statement of `upsert_data` (data.py 448-453),
with the exact layout of the f-string (leading newline, 16-space
indentation). -/
def upsertInsertQuery (schema tname : String) (columns : List String) : String :=
  "\n                INSERT INTO " ++ schema ++ "." ++ tname ++ " (" ++ joinComma columns ++
  ")\n                VALUES (" ++ joinComma (columns.map fun _ => "%s") ++
  ")\n                ON CONFLICT DO NOTHING\n                RETURNING *;\n                "

/-- The conflict-update statement of `upsert_data` (data.py 463-468),
with the exact layout of the f-string (28-space indentation). -/
def upsertUpdateQuery (schema tname : String) (columns serialMissing uniq : List String)
    (assignments : String) : String :=
  "\n                            INSERT INTO " ++ schema ++ "." ++ tname ++ " (" ++
  joinComma (columns ++ serialMissing) ++
  ")\n                            VALUES (" ++
  joinComma ((columns.map fun _ => "%s") ++ serialMissing.map fun _ => "DEFAULT") ++
  ")\n                            ON CONFLICT (" ++ joinComma uniq ++
  ")\n                            DO UPDATE SET " ++ assignments ++
  ";\n                            "

/-- Observable result of an `upsert_data` call. -/
inductive UpsertResult where
  /-- the boolean return value -/
  | ret (b : Bool)
  /-- `ValueError` raised by the emptiness guards (data.py 376-380) -/
  | valueError
  /-- `Exception` raised by the unsupported-type branch (data.py 397) -/
  | exnUnsupported
  /-- uncaught `AttributeError` (pandas `to_dicts`, or `row.keys()` on
      a non-dict loop element) -/
  | attrError
deriving DecidableEq, Repr

structure UpsertOut where
  result : UpsertResult
  table : Table
  trace : List Eff
deriving DecidableEq, Repr

/-- Which branch one row-iteration of `upsert_data` took.  Recorded for
specification purposes only; the control flow does not consume it. -/
inductive RowPath where
  /-- the RETURNING result was non-empty: plain insert succeeded -/
  | straightInsert
  /-- conflict branch, `force_update` path, update succeeded -/
  | conflictHandled
  /-- conflict branch, `force_update=False`: call fails -/
  | conflictRefused
  /-- conflict branch, `force_update` path, update errored -/
  | conflictUpdateFailed
  /-- driver error whose text lacks `unique constraint` -/
  | hardError
  /-- a caller-supplied unique column is absent from the row -/
  | missingUniqueColumn
  /-- loop element is not a dict -/
  | notADict
deriving DecidableEq, Repr

/-- The row paths entered through the conflict-handling branch
(data.py 460-478), i.e. after `"unique constraint" in str(e)`. -/
def conflictPath : RowPath → Bool
  | RowPath.conflictHandled => true
  | RowPath.conflictRefused => true
  | RowPath.conflictUpdateFailed => true
  | _ => false

/-- Outcome of one row iteration: continue with new state, or stop the
whole call. -/
inductive StepRes where
  | next (t : Table) (tr : List Eff)
  | stop (res : UpsertResult) (t : Table) (tr : List Eff)
deriving DecidableEq, Repr

/-- The update statement the conflict branch builds for row `r`: the
assignments are `c = EXCLUDED.c` for the row's columns outside the
effective unique set (data.py 426-428), and the serial columns absent
from the row get DEFAULT placeholders (data.py 439, 464-465). -/
def upsertUpdateQueryFor (schema tname : String) (effective serials : List String)
    (r : Row) : String :=
  upsertUpdateQuery schema tname (Row.keys r)
    (serials.filter fun c => !(Row.keys r).contains c) effective
    (joinComma (((Row.keys r).filter fun c => !effective.contains c).map
      fun c => c ++ " = EXCLUDED." ++ c))

/-- The conflict-handling branch of one `upsert_data` row iteration
(data.py 460-478). -/
def upsertConflictBranch (schema tname : String) (effective serials : List String)
    (force_update : Bool) (r : Row) (t : Table) (tr : List Eff) : RowPath × StepRes :=
  if force_update then
    match execInsertDoUpdate t effective r with
    | Except.ok t1 =>
      (RowPath.conflictHandled,
        StepRes.next t1
          (tr ++ [Eff.stmtUpdate (upsertUpdateQueryFor schema tname effective serials r)]))
    | Except.error _ =>
      (RowPath.conflictUpdateFailed,
        StepRes.stop (UpsertResult.ret false) t
          (tr ++ [Eff.stmtUpdate (upsertUpdateQueryFor schema tname effective serials r),
            Eff.rollback]))
  else
    (RowPath.conflictRefused,
      StepRes.stop (UpsertResult.ret false) t (tr ++ [Eff.rollback]))

/-- One iteration of the row loop of `upsert_data` (data.py 422-482):
unique-column presence check (431-435, a bare `return False` with no
rollback call), sequence resets (442-445), the DO NOTHING insert with
its zero-rows test (457 raises `unique constraint violation` on an
empty RETURNING result, caught at 459), and the error dispatch on the
substring `unique constraint` (460). -/
def upsertRowStep (schema tname : String) (original effective serials : List String)
    (force_update : Bool) (t : Table) (tr : List Eff) : PyObj → RowPath × StepRes
  | PyObj.pystr _ => (RowPath.notADict, StepRes.stop UpsertResult.attrError t tr)
  | PyObj.row r =>
    if original.any fun c => !(Row.keys r).contains c then
      (RowPath.missingUniqueColumn, StepRes.stop (UpsertResult.ret false) t tr)
    else
      match execInsertDoNothing t r with
      | Except.ok (results, t1) =>
        if results.isEmpty then
          upsertConflictBranch schema tname effective serials force_update r t1
            (tr ++ serials.map Eff.setval ++
              [Eff.stmtInsert (upsertInsertQuery schema tname (Row.keys r))])
        else
          (RowPath.straightInsert,
            StepRes.next t1
              (tr ++ serials.map Eff.setval ++
                [Eff.stmtInsert (upsertInsertQuery schema tname (Row.keys r))]))
      | Except.error msg =>
        if containsSub msg "unique constraint" then
          upsertConflictBranch schema tname effective serials force_update r t
            (tr ++ serials.map Eff.setval ++
              [Eff.stmtInsert (upsertInsertQuery schema tname (Row.keys r))])
        else
          (RowPath.hardError,
            StepRes.stop (UpsertResult.ret false) t
              (tr ++ serials.map Eff.setval ++
                [Eff.stmtInsert (upsertInsertQuery schema tname (Row.keys r)), Eff.rollback]))

/-- Classifies a step outcome: `none` when the loop continues, the
stopping result otherwise. -/
def stopResult : StepRes → Option UpsertResult
  | StepRes.next _ _ => none
  | StepRes.stop res _ _ => some res

/-- The row loop of `upsert_data`; after the last row, `conn.commit()`
(a no-op on the autocommit connection) and `return True`. -/
def upsertLoop (schema tname : String) (original effective serials : List String)
    (force_update : Bool) : List PyObj → Table → List Eff → UpsertOut
  | [], t, tr => ⟨UpsertResult.ret true, t, tr ++ [Eff.commit]⟩
  | o :: rest, t, tr =>
    match (upsertRowStep schema tname original effective serials force_update t tr o).2 with
    | StepRes.next t1 tr1 =>
      upsertLoop schema tname original effective serials force_update rest t1 tr1
    | StepRes.stop res t1 tr1 => ⟨res, t1, tr1⟩

/-- Line 413-415 of data.py: an empty unique-column list is replaced by
the table's primary-key columns. -/
def resolveUnique (ucs pk : List String) : List String :=
  if ucs.isEmpty then pk else ucs

/-- The `data_type` tag passed to `upsert_data`. -/
inductive DTag where
  | dictT
  | polarsT
  | pandasT
  | otherT
deriving DecidableEq, Repr

/-- The `data` argument of `upsert_data`. -/
inductive UData where
  | pandasF (f : Frame)
  | polarsF (f : Frame)
  | dictList (objs : List PyObj)
  | dictScalar (r : Row)
deriving DecidableEq, Repr

/-- The two emptiness guards at data.py 376-380: `data.empty` /
`data.is_empty()` for frames, Python falsiness for a list or dict. -/
def isEmptyUData : UData → Bool
  | UData.pandasF f => f.frows.isEmpty
  | UData.polarsF f => f.frows.isEmpty
  | UData.dictList objs => objs.isEmpty
  | UData.dictScalar r => r.isEmpty

/-- Translation of `upsert_data` (data.py 343-487).  The emptiness
guards raise `ValueError` before anything touches the database; the
type dispatch (382-397) selects the iterated objects (a polars frame
contributes its `to_dict()` column names, a pandas frame dies on the
nonexistent `to_dicts` attribute); unique columns are normalized and,
when empty, replaced by the introspected primary key; the row loop then
runs on the autocommit connection. -/
def upsert_data (t : Table) (table_name : String) (data_type : DTag) (data : UData)
    (unique_columns : UniqueArg) (force_update : Bool) : UpsertOut :=
  if isEmptyUData data then ⟨UpsertResult.valueError, t, []⟩
  else
    let dispatch : Except UpsertOut (List PyObj) :=
      match data_type, data with
      | DTag.dictT, UData.dictList objs =>
        if objs.all PyObj.isRow then Except.ok objs
        else Except.error ⟨UpsertResult.ret false, t, []⟩
      | DTag.dictT, UData.dictScalar _ => Except.error ⟨UpsertResult.ret false, t, []⟩
      | DTag.polarsT, UData.polarsF f => Except.ok (f.cols.map PyObj.pystr)
      | DTag.pandasT, UData.pandasF _ => Except.error ⟨UpsertResult.attrError, t, []⟩
      | _, _ => Except.error ⟨UpsertResult.exnUnsupported, t, []⟩
    match dispatch with
    | Except.error out => out
    | Except.ok objs =>
      let original := normalizeUnique unique_columns
      let st := splitTableSchema table_name
      let effective := resolveUnique original t.pkCols
      let tr0 := (if original.isEmpty then [Eff.introspectPK] else []) ++
        [Eff.introspectSerial, Eff.connect]
      upsertLoop st.1 st.2 original effective t.serialCols force_update objs t tr0

/-- The `DataType` enum (`app/domain/schemas/types.py` 51-68). -/
inductive DataType where
  | LIST
  | DICT
  | PANDAS
  | POLARS
  | LAZY_POLARS
  | DUCKDB
  | ARROW
  | TUPLE
deriving DecidableEq, Repr

/-- The `return_type` argument of `read_data`: a `DataType` member, or
any other Python value (the membership test
`return_type not in DataType.set_options()` fails only for
non-members). -/
inductive ReturnTypeArg where
  | mem (dt : DataType)
  | notMember
deriving DecidableEq, Repr

/-- Outcome of executing the read query against the backend. -/
inductive FetchOutcome where
  | rows (rs : List Row)
  | failure (msg : String)
deriving DecidableEq, Repr

/-- Observable result of a `read_data` call. -/
inductive ReadResult where
  /-- the `TypeError` raised at data.py 199-200 -/
  | typeErrorRaised
  /-- the fetched result, converted to the requested representation -/
  | valueRows (dt : DataType) (rs : List Row)
  /-- the fall-through `return None` at data.py 237 -/
  | valueNone
  /-- the `raise` at data.py 241 re-raising the execution failure -/
  | reraised (msg : String)
deriving DecidableEq, Repr

/-- The representations with an actual fetch path in `read_data`
(data.py 207-234); `LIST` and `DUCKDB` fall through to `return None`
without touching the database. -/
def readSupported (dt : DataType) : Bool :=
  match dt with
  | DataType.POLARS => true
  | DataType.LAZY_POLARS => true
  | DataType.ARROW => true
  | DataType.PANDAS => true
  | DataType.DICT => true
  | DataType.TUPLE => true
  | DataType.LIST => false
  | DataType.DUCKDB => false

/-- Translation of `read_data` (data.py 178-241): the TypeError guard,
the per-representation dispatch, the fall-through `return None`, and
the `except Exception: ... raise` that re-raises any execution
failure. -/
def read_data (return_type : ReturnTypeArg) (fetch : FetchOutcome) : ReadResult :=
  match return_type with
  | ReturnTypeArg.notMember => ReadResult.typeErrorRaised
  | ReturnTypeArg.mem dt =>
    if readSupported dt then
      match fetch with
      | FetchOutcome.rows rs => ReadResult.valueRows dt rs
      | FetchOutcome.failure msg => ReadResult.reraised msg
    else ReadResult.valueNone

/-- A condition value in the `delete_data` condition mapping: a scalar
or a list. -/
inductive CondVal where
  | scalar (v : Val)
  | listV (vs : List Val)
deriving DecidableEq, Repr

/-- The WHERE fragments and bound values built by the loop at
data.py 273-280. -/
def buildConditions (condition_dict : List (String × CondVal)) : List String × List Val :=
  condition_dict.foldl
    (fun acc p =>
      match p.2 with
      | CondVal.listV vs =>
        (acc.1 ++ [p.1 ++ " IN (" ++ joinComma (vs.map fun _ => "%s") ++ ")"], acc.2 ++ vs)
      | CondVal.scalar v => (acc.1 ++ [p.1 ++ " = %s"], acc.2 ++ [v]))
    ([], [])

/-- The WHERE fragment one condition entry contributes. -/
def condFragment (p : String × CondVal) : String :=
  match p.2 with
  | CondVal.listV vs => p.1 ++ " IN (" ++ joinComma (vs.map fun _ => "%s") ++ ")"
  | CondVal.scalar _ => p.1 ++ " = %s"

/-- The bound values one condition entry contributes. -/
def condValues (p : String × CondVal) : List Val :=
  match p.2 with
  | CondVal.listV vs => vs
  | CondVal.scalar v => [v]

/-- Double-quoted rendering of `psycopg.sql.Identifier`. -/
def quoteIdent (s : String) : String := "\"" ++ s ++ "\""

/-- The composed DELETE statement of `delete_data` (data.py 282-286). -/
def deleteQuery (table_name : String) (condition_dict : List (String × CondVal)) : String :=
  let st := splitTableSchema table_name
  "DELETE FROM " ++ quoteIdent st.1 ++ "." ++ quoteIdent st.2 ++ " WHERE " ++
    String.intercalate " AND " (buildConditions condition_dict).1

/-- SQL equality as used by `=` and `IN`: NULLs never compare equal. -/
def valEq : Val → Val → Bool
  | Val.int a, Val.int b => a == b
  | Val.vstr a, Val.vstr b => a == b
  | _, _ => false

/-- One condition entry holds on a row. -/
def condMatches (r : Row) (p : String × CondVal) : Bool :=
  match r.lookup p.1 with
  | none => false
  | some v =>
    match p.2 with
    | CondVal.scalar w => valEq v w
    | CondVal.listV ws => ws.any fun w => valEq v w

/-- All conditions hold on a row (the fragments are ANDed). -/
def rowMatchesAll (condition_dict : List (String × CondVal)) (r : Row) : Bool :=
  condition_dict.all fun p => condMatches r p

/-- Translation of `delete_data` (data.py 244-295): the matching rows
are removed and `cur.rowcount`, the number of affected rows, is
returned (0 when nothing matches). -/
def delete_data (t : Table) (condition_dict : List (String × CondVal)) : Nat × Table :=
  (t.rows.countP (rowMatchesAll condition_dict),
   { t with rows := t.rows.filter fun r => !rowMatchesAll condition_dict r })

/-! Helper lemmas (shared across claims). -/

theorem conflictPath_branch (schema tname : String) (effective serials : List String)
    (fu : Bool) (r : Row) (t : Table) (tr : List Eff) :
    conflictPath (upsertConflictBranch schema tname effective serials fu r t tr).1 = true := by
  unfold upsertConflictBranch
  cases fu with
  | false => simp [conflictPath]
  | true =>
    cases hx : execInsertDoUpdate t effective r <;> simp [hx, conflictPath]

theorem upsertConflictBranch_stop (schema tname : String) (effective serials : List String)
    (fu : Bool) (r : Row) (t : Table) (tr : List Eff) (res : UpsertResult)
    (h : stopResult (upsertConflictBranch schema tname effective serials fu r t tr).2 =
      some res) :
    res = UpsertResult.ret false := by
  unfold upsertConflictBranch at h
  cases fu with
  | false =>
    simp [stopResult] at h
    exact h.symm
  | true =>
    cases hupd : execInsertDoUpdate t effective r with
    | ok t1 =>
      rw [hupd] at h
      simp [stopResult] at h
    | error e =>
      rw [hupd] at h
      simp [stopResult] at h
      exact h.symm

theorem upsertRowStep_row_stop (schema tname : String) (original effective serials : List String)
    (fu : Bool) (t : Table) (tr : List Eff) (r : Row) (res : UpsertResult)
    (h : stopResult (upsertRowStep schema tname original effective serials fu t tr
      (PyObj.row r)).2 = some res) :
    res = UpsertResult.ret false := by
  simp only [upsertRowStep] at h
  by_cases hany : (original.any fun c => !(Row.keys r).contains c) = true
  · rw [if_pos hany] at h
    simp [stopResult] at h
    exact h.symm
  · rw [if_neg hany] at h
    cases hexec : execInsertDoNothing t r with
    | ok p =>
      obtain ⟨results, t1⟩ := p
      rw [hexec] at h
      cases results with
      | nil =>
        simp only [List.isEmpty_nil, if_true] at h
        exact upsertConflictBranch_stop schema tname effective serials fu r t1 _ res h
      | cons a as =>
        simp [stopResult] at h
    | error msg =>
      rw [hexec] at h
      by_cases hm : containsSub msg "unique constraint" = true
      · simp only [hm, eq_self_iff_true, if_true] at h
        exact upsertConflictBranch_stop schema tname effective serials fu r t _ res h
      · simp [hm, stopResult] at h
        first
          | exact h
          | exact h.symm

theorem lookupAll_eq_none_iff (r : Row) (cols : List String) :
    lookupAll r cols = none ↔ ∃ c ∈ cols, r.lookup c = none := by
  induction cols with
  | nil => simp [lookupAll]
  | cons c cs ih =>
    simp only [lookupAll]
    cases h : r.lookup c with
    | none =>
      simp only [h]
      constructor
      · intro _; exact ⟨c, List.mem_cons_self c cs, h⟩
      · intro _; trivial
    | some v =>
      cases h2 : lookupAll r cs with
      | none =>
        simp only [h2]
        constructor
        · intro _
          obtain ⟨c2, hmem, hl⟩ := ih.mp h2
          exact ⟨c2, List.mem_cons_of_mem c hmem, hl⟩
        · intro _; trivial
      | some vs =>
        simp only [h2]
        constructor
        · intro hcontra; cases hcontra
        · rintro ⟨c2, hmem, hl⟩
          rcases List.mem_cons.mp hmem with heq | hmem2
          · subst heq; rw [h] at hl; cases hl
          · have := ih.mpr ⟨c2, hmem2, hl⟩
            rw [h2] at this; cases this

theorem buildValues_eq_none_iff (cols : List String) (rows : List Row) :
    buildValues cols rows = none ↔ ∃ r ∈ rows, ∃ c ∈ cols, r.lookup c = none := by
  induction rows with
  | nil => simp [buildValues]
  | cons r rs ih =>
    simp only [buildValues]
    cases h : lookupAll r cols with
    | none =>
      simp only [h]
      constructor
      · intro _
        obtain ⟨c, hmem, hl⟩ := (lookupAll_eq_none_iff r cols).mp h
        exact ⟨r, List.mem_cons_self r rs, c, hmem, hl⟩
      · intro _; trivial
    | some vs =>
      cases h2 : buildValues cols rs with
      | none =>
        simp only [h2]
        constructor
        · intro _
          obtain ⟨r2, hmem, hrest⟩ := ih.mp h2
          exact ⟨r2, List.mem_cons_of_mem r hmem, hrest⟩
        · intro _; trivial
      | some vss =>
        simp only [h2]
        constructor
        · intro hcontra; cases hcontra
        · rintro ⟨r2, hmem, c, hcmem, hl⟩
          rcases List.mem_cons.mp hmem with heq | hmem2
          · subst heq
            have := (lookupAll_eq_none_iff r2 cols).mpr ⟨c, hcmem, hl⟩
            rw [h] at this; cases this
          · have := ih.mpr ⟨r2, hmem2, c, hcmem, hl⟩
            rw [h2] at this; cases this

theorem buildConditions_go (cond : List (String × CondVal)) (acc1 : List String)
    (acc2 : List Val) :
    cond.foldl
      (fun acc p =>
        match p.2 with
        | CondVal.listV vs =>
          (acc.1 ++ [p.1 ++ " IN (" ++ joinComma (vs.map fun _ => "%s") ++ ")"], acc.2 ++ vs)
        | CondVal.scalar v => (acc.1 ++ [p.1 ++ " = %s"], acc.2 ++ [v]))
      (acc1, acc2) =
    (acc1 ++ cond.map condFragment, acc2 ++ cond.flatMap condValues) := by
  induction cond generalizing acc1 acc2 with
  | nil => simp
  | cons p rest ih =>
    obtain ⟨c, v⟩ := p
    cases v with
    | scalar w =>
      simp only [List.foldl_cons]
      rw [ih]
      simp [condFragment, condValues, List.append_assoc]
    | listV ws =>
      simp only [List.foldl_cons]
      rw [ih]
      simp [condFragment, condValues, List.append_assoc]

theorem buildConditions_eq (cond : List (String × CondVal)) :
    buildConditions cond = (cond.map condFragment, cond.flatMap condValues) := by
  have h := buildConditions_go cond [] []
  simpa [buildConditions] using h

theorem splitDot1_of_not_mem (l : List Char) (h : '.' ∉ l) : splitDot1 l = none := by
  induction l with
  | nil => rfl
  | cons c rest ih =>
    simp only [List.mem_cons, not_or] at h
    simp [splitDot1, Ne.symm h.1, ih h.2]

theorem splitDot1_first (pre post : List Char) (h : '.' ∉ pre) :
    splitDot1 (pre ++ '.' :: post) = some (pre, post) := by
  induction pre with
  | nil => simp [splitDot1]
  | cons c rest ih =>
    simp only [List.mem_cons, not_or] at h
    simp [splitDot1, Ne.symm h.1, ih h.2]

/-! Claim theorems. -/

/-- C1 (divergence evidence): `upsert_data` does not execute the batch
inside one covering transaction.  The connection is opened with
`autocommit=True` and no transaction block is started, so on the table
`t(id unique/pk, v not-null)` the two-row batch whose second row
violates NOT NULL returns `False` while the first row stays committed:
the table retains the row processed before the failing one, contrary to
the claim that it retains none. -/
theorem upsert_partial_commit_on_driver_error :
    (upsert_data ⟨["id"], ["v"], ["id"], [], []⟩ "t" DTag.dictT
        (UData.dictList [PyObj.row [("id", Val.int 1), ("v", Val.int 0)],
          PyObj.row [("id", Val.int 2), ("v", Val.null)]])
        (UniqueArg.listArg ["id"]) true).result = UpsertResult.ret false ∧
    (upsert_data ⟨["id"], ["v"], ["id"], [], []⟩ "t" DTag.dictT
        (UData.dictList [PyObj.row [("id", Val.int 1), ("v", Val.int 0)],
          PyObj.row [("id", Val.int 2), ("v", Val.null)]])
        (UniqueArg.listArg ["id"]) true).table.rows =
      [[("id", Val.int 1), ("v", Val.int 0)]] := by
  constructor <;> rfl

/-- C3 (divergence evidence): with `force_update=False`, a conflict on
the second row makes the call fail without processing further rows, but
the first row of the same call — inserted and committed on the
autocommit connection — is retained, so the table state differs from
the state before the call (which held only the row `id=2`). -/
theorem upsert_conflict_no_force_retains_prior_row :
    (upsert_data ⟨["id"], [], ["id"], [], [[("id", Val.int 2), ("v", Val.int 9)]]⟩ "t"
        DTag.dictT
        (UData.dictList [PyObj.row [("id", Val.int 1), ("v", Val.int 5)],
          PyObj.row [("id", Val.int 2), ("v", Val.int 7)]])
        (UniqueArg.listArg ["id"]) false).result = UpsertResult.ret false ∧
    (upsert_data ⟨["id"], [], ["id"], [], [[("id", Val.int 2), ("v", Val.int 9)]]⟩ "t"
        DTag.dictT
        (UData.dictList [PyObj.row [("id", Val.int 1), ("v", Val.int 5)],
          PyObj.row [("id", Val.int 2), ("v", Val.int 7)]])
        (UniqueArg.listArg ["id"]) false).table.rows =
      [[("id", Val.int 2), ("v", Val.int 9)], [("id", Val.int 1), ("v", Val.int 5)]] := by
  constructor <;> rfl

/-- C4 counterexample: a list-of-row-mappings input whose second row
has a different (here: strictly larger) column set than row 1 is NOT
rejected: `insert_data` succeeds, inserting both rows projected onto
row 1's columns, instead of failing with a ValidationError and
inserting nothing. -/
theorem insert_heterogeneous_accepted_cex :
    insert_data_dict ⟨[], [], [], [], []⟩
        [PyObj.row [("a", Val.int 1)], PyObj.row [("a", Val.int 2), ("b", Val.int 3)]]
        UniqueArg.noneArg =
      ⟨InsResult.ret true, ⟨[], [], [], [], [[("a", Val.int 1)], [("a", Val.int 2)]]⟩⟩ := by
  rfl

/-- C8 counterexample: for the recognized representation `POLARS`, a
failure while executing the query is re-raised by the bare `raise` at
data.py 241, not converted into an empty collection or `None`. -/
theorem read_failure_reraises_cex :
    read_data (ReturnTypeArg.mem DataType.POLARS) (FetchOutcome.failure "connection lost") =
      ReadResult.reraised "connection lost" := rfl

/-- C8 amended: `read_data` raises `TypeError` exactly when the
requested representation is not a `DataType` member; the recognized but
unsupported representations (`LIST`, `DUCKDB`) fall through to
`return None` without executing the query; for supported
representations a failure while executing the query is re-raised (after
logging), and a successful fetch is returned converted. -/
theorem read_data_dispatch :
    (∀ fetch, read_data ReturnTypeArg.notMember fetch = ReadResult.typeErrorRaised) ∧
    (∀ dt fetch, read_data (ReturnTypeArg.mem dt) fetch ≠ ReadResult.typeErrorRaised) ∧
    (∀ dt fetch, readSupported dt = false →
        read_data (ReturnTypeArg.mem dt) fetch = ReadResult.valueNone) ∧
    (∀ dt msg, readSupported dt = true →
        read_data (ReturnTypeArg.mem dt) (FetchOutcome.failure msg) =
          ReadResult.reraised msg) ∧
    (∀ dt rs, readSupported dt = true →
        read_data (ReturnTypeArg.mem dt) (FetchOutcome.rows rs) =
          ReadResult.valueRows dt rs) := by
  refine ⟨fun fetch => rfl, ?_, ?_, ?_, ?_⟩
  · intro dt fetch
    cases hs : readSupported dt with
    | true => cases fetch <;> simp [read_data, hs]
    | false => simp [read_data, hs]
  · intro dt fetch h
    simp only [read_data]
    rw [h]
    cases fetch <;> rfl
  · intro dt msg h
    simp only [read_data]
    rw [h]
    rfl
  · intro dt rs h
    simp only [read_data]
    rw [h]
    rfl

/-- C8 witness: the amended behavior evaluated at `DICT` and a failing
query. -/
theorem read_data_dispatch_witness :
    read_data (ReturnTypeArg.mem DataType.DICT) (FetchOutcome.failure "boom") =
      ReadResult.reraised "boom" :=
  read_data_dispatch.2.2.2.1 DataType.DICT "boom" rfl

/-- C7: the generated conflict clause is exactly
`ON CONFLICT (<unique columns>) DO UPDATE SET <assignments>`: without
optional updates the assignments are `col=EXCLUDED.col` for precisely
the columns not in the unique set, in column order; with optional
updates they are exactly the caller-supplied column/expression pairs;
and `insert_data` appends the clause to its insert statement if and
only if a non-empty unique column set is given. -/
theorem conflict_clause_shape :
    (∀ uniq cols, build_conflicts_query uniq cols none =
        "ON CONFLICT (" ++ joinComma uniq ++ ") DO UPDATE SET " ++
          joinComma ((cols.filter fun c => !uniq.contains c).map
            fun c => c ++ "=EXCLUDED." ++ c)) ∧
    (∀ uniq cols upd, build_conflicts_query uniq cols (some upd) =
        "ON CONFLICT (" ++ joinComma uniq ++ ") DO UPDATE SET " ++
          joinComma (upd.map fun p => p.1 ++ "=" ++ p.2)) ∧
    (∀ tn cols u upd, normalizeUnique u ≠ [] →
        insertQueryDict tn cols u upd =
          "INSERT INTO " ++ tn ++ " " ++ " (" ++ joinComma cols ++ ") VALUES (" ++
              joinComma (cols.map fun _ => "%s") ++ ")" ++
            build_conflicts_query (normalizeUnique u) cols upd) ∧
    (∀ tn cols u upd, normalizeUnique u = [] →
        insertQueryDict tn cols u upd =
          "INSERT INTO " ++ tn ++ " " ++ " (" ++ joinComma cols ++ ") VALUES (" ++
            joinComma (cols.map fun _ => "%s") ++ ")") := by
  refine ⟨fun uniq cols => rfl, fun uniq cols upd => rfl, ?_, ?_⟩
  · intro tn cols u upd h
    cases hu : normalizeUnique u with
    | nil => exact absurd hu h
    | cons a l =>
      unfold insertQueryDict
      rw [hu]
      rfl
  · intro tn cols u upd h
    unfold insertQueryDict
    rw [h]
    rfl

/-- C7 witness: the appended clause evaluated at columns `a, b` with
unique column `a` (note the missing space before `ON CONFLICT` and the
doubled space after the table name, both faithful to the source). -/
theorem conflict_clause_shape_witness :
    insertQueryDict "t" ["a", "b"] (UniqueArg.listArg ["a"]) none =
      "INSERT INTO t  (a, b) VALUES (%s, %s)ON CONFLICT (a) DO UPDATE SET b=EXCLUDED.b" := by
  rw [conflict_clause_shape.2.2.1 "t" ["a", "b"] (UniqueArg.listArg ["a"]) none (by decide)]
  rfl

/-- C9: `delete_data` turns list-valued conditions into
`col IN (...)` with one placeholder per element and scalar-valued
conditions into `col = %s` with the value bound, ANDs all fragments,
splits a dotted table name on the first dot (defaulting the schema to
`public`), and returns the affected-row count, which is 0 — not an
error — when no rows match. -/
theorem delete_where_clause_shape :
    (∀ cond, (buildConditions cond).1 = cond.map condFragment) ∧
    (∀ col vs, condFragment (col, CondVal.listV vs) =
        col ++ " IN (" ++ joinComma (vs.map fun _ => "%s") ++ ")") ∧
    (∀ col v, condFragment (col, CondVal.scalar v) = col ++ " = %s") ∧
    (∀ cond, (buildConditions cond).2 = cond.flatMap condValues) ∧
    (∀ table_name cond, deleteQuery table_name cond =
        "DELETE FROM " ++ quoteIdent (splitTableSchema table_name).1 ++ "." ++
          quoteIdent (splitTableSchema table_name).2 ++ " WHERE " ++
          String.intercalate " AND " (cond.map condFragment)) ∧
    (∀ pre post : List Char, '.' ∉ pre →
        splitTableSchema (String.mk (pre ++ '.' :: post)) =
          (String.mk pre, String.mk post)) ∧
    (∀ s : String, '.' ∉ s.toList → splitTableSchema s = ("public", s)) ∧
    (∀ t cond, (delete_data t cond).1 = t.rows.countP (rowMatchesAll cond)) ∧
    (∀ t cond, (∀ r ∈ t.rows, rowMatchesAll cond r = false) →
        (delete_data t cond).1 = 0 ∧ (delete_data t cond).2 = t) := by
  refine ⟨?_, fun col vs => rfl, fun col v => rfl, ?_, ?_, ?_, ?_, fun t cond => rfl, ?_⟩
  · intro cond
    rw [buildConditions_eq]
  · intro cond
    rw [buildConditions_eq]
  · intro table_name cond
    unfold deleteQuery
    rw [buildConditions_eq]
  · intro pre post h
    unfold splitTableSchema
    rw [show (String.mk (pre ++ '.' :: post)).toList = pre ++ '.' :: post from rfl,
      splitDot1_first pre post h]
  · intro s h
    unfold splitTableSchema
    rw [splitDot1_of_not_mem s.toList h]
  · intro t cond h
    constructor
    · simp only [delete_data]
      rw [List.countP_eq_zero]
      intro r hr
      simp [h r hr]
    · simp only [delete_data]
      have hf : (t.rows.filter fun r => !rowMatchesAll cond r) = t.rows := by
        rw [List.filter_eq_self]
        intro r hr
        simp [h r hr]
      rw [hf]

/-- C9 witness: the first-dot split evaluated on a concrete dotted
name. -/
theorem delete_where_clause_shape_witness :
    splitTableSchema (String.mk (['m', 'y', 's'] ++ '.' :: ['t', 'b'])) =
      (String.mk ['m', 'y', 's'], String.mk ['t', 'b']) :=
  delete_where_clause_shape.2.2.2.2.2.1 ['m', 'y', 's'] ['t', 'b'] (by decide)

/-- C10: for every empty input — empty pandas or polars frame, falsy
list or dict — `upsert_data` raises `ValueError` with the table
untouched and an empty effect trace: no database connection is
acquired and no statement executes, and no boolean failure value is
returned. -/
theorem upsert_empty_input_raises (t : Table) (table_name : String) (data_type : DTag)
    (data : UData) (u : UniqueArg) (fu : Bool) (h : isEmptyUData data = true) :
    upsert_data t table_name data_type data u fu = ⟨UpsertResult.valueError, t, []⟩ := by
  unfold upsert_data
  rw [if_pos h]

/-- C10 witness: the empty-polars-frame instance. -/
theorem upsert_empty_input_raises_witness :
    upsert_data ⟨[], [], [], [], []⟩ "t" DTag.polarsT (UData.polarsF ⟨["a"], []⟩)
      UniqueArg.noneArg true = ⟨UpsertResult.valueError, ⟨[], [], [], [], []⟩, []⟩ :=
  upsert_empty_input_raises ⟨[], [], [], [], []⟩ "t" DTag.polarsT (UData.polarsF ⟨["a"], []⟩)
    UniqueArg.noneArg true rfl

/-- C2: the per-row insert attempt of `upsert_data` is the plain
`INSERT ... ON CONFLICT DO NOTHING RETURNING *;` statement, and the
conflict-handling branch is entered exactly when that statement
returns zero rows — the code itself raises the
`unique constraint violation` error on an empty RETURNING list, with
no driver-level error involved — while a non-empty result is treated
as a successful insert and the loop continues with the new state. -/
theorem upsert_conflict_iff_empty_returning (schema tname : String)
    (original effective serials : List String) (fu : Bool) (t : Table) (tr : List Eff)
    (r : Row)
    (hcols : (original.any fun c => !(Row.keys r).contains c) = false) :
    (upsertInsertQuery schema tname (Row.keys r) =
      "\n                INSERT INTO " ++ schema ++ "." ++ tname ++ " (" ++
        joinComma (Row.keys r) ++ ")\n                VALUES (" ++
        joinComma ((Row.keys r).map fun _ => "%s") ++
        ")\n                ON CONFLICT DO NOTHING\n                RETURNING *;\n                ") ∧
    (conflictPath
        (upsertRowStep schema tname original effective serials fu t tr (PyObj.row r)).1 =
          true ↔
      execInsertDoNothing t r = Except.ok ([], t)) ∧
    (∀ t1, execInsertDoNothing t r = Except.ok ([r], t1) →
      (upsertRowStep schema tname original effective serials fu t tr (PyObj.row r)).2 =
        StepRes.next t1 (tr ++ serials.map Eff.setval ++
          [Eff.stmtInsert (upsertInsertQuery schema tname (Row.keys r))])) := by
  have hnot : ¬ (original.any fun c => !(Row.keys r).contains c) = true := by
    rw [hcols]
    simp
  refine ⟨rfl, ?_, ?_⟩
  · by_cases h1 : violatesNotNull t r = true
    · have hx : execInsertDoNothing t r = Except.error notNullMsg := by
        unfold execInsertDoNothing
        rw [if_pos h1]
      have hm : containsSub notNullMsg "unique constraint" = false := rfl
      simp only [upsertRowStep]
      rw [if_neg hnot, hx]
      simp [conflictPath, hm]
    · by_cases h2 : hasConflict t r = true
      · have hx : execInsertDoNothing t r = Except.ok ([], t) := by
          unfold execInsertDoNothing
          rw [if_neg (by simp [h1]), if_pos h2]
        simp only [upsertRowStep]
        rw [if_neg hnot, hx]
        simp [conflictPath_branch]
      · have hx : execInsertDoNothing t r =
            Except.ok ([r], { t with rows := t.rows ++ [r] }) := by
          unfold execInsertDoNothing
          rw [if_neg (by simp [h1]), if_neg (by simp [h2])]
        simp only [upsertRowStep]
        rw [if_neg hnot, hx]
        simp [conflictPath]
  · intro t1 hexec
    by_cases h1 : violatesNotNull t r = true
    · have hx : execInsertDoNothing t r = Except.error notNullMsg := by
        unfold execInsertDoNothing
        rw [if_pos h1]
      rw [hx] at hexec
      cases hexec
    · by_cases h2 : hasConflict t r = true
      · have hx : execInsertDoNothing t r = Except.ok ([], t) := by
          unfold execInsertDoNothing
          rw [if_neg (by simp [h1]), if_pos h2]
        rw [hx] at hexec
        simp at hexec
      · have hx : execInsertDoNothing t r =
            Except.ok ([r], { t with rows := t.rows ++ [r] }) := by
          unfold execInsertDoNothing
          rw [if_neg (by simp [h1]), if_neg (by simp [h2])]
        rw [hx] at hexec
        cases hexec
        simp only [upsertRowStep]
        rw [if_neg hnot, hx]
        rfl

/-- C2 witness: on a table already holding `id=1`, the DO NOTHING
insert of `id=1` returns zero rows and the step takes the conflict
branch. -/
theorem upsert_conflict_iff_empty_returning_witness :
    conflictPath (upsertRowStep "public" "t" [] ["id"] [] false
      ⟨["id"], [], ["id"], [], [[("id", Val.int 1)]]⟩ [] (PyObj.row [("id", Val.int 1)])).1 =
      true :=
  ((upsert_conflict_iff_empty_returning "public" "t" [] ["id"] [] false
    ⟨["id"], [], ["id"], [], [[("id", Val.int 1)]]⟩ [] [("id", Val.int 1)] rfl).2.1).mpr rfl

theorem upsertLoop_missing_unique_fails (schema tname : String)
    (original effective serials : List String) (fu : Bool) :
    ∀ (objs : List PyObj) (t : Table) (tr : List Eff),
      objs.all PyObj.isRow = true →
      (∃ r, PyObj.row r ∈ objs ∧ ∃ c ∈ original, (Row.keys r).contains c = false) →
      (upsertLoop schema tname original effective serials fu objs t tr).result =
        UpsertResult.ret false := by
  intro objs
  induction objs with
  | nil =>
    intro t tr hall hex
    obtain ⟨r, hmem, _⟩ := hex
    cases hmem
  | cons o rest ih =>
    intro t tr hall hex
    obtain ⟨r, hmem, c, hc, hkeys⟩ := hex
    have hallr : o.isRow = true ∧ rest.all PyObj.isRow = true := by
      simpa using hall
    rcases List.mem_cons.mp hmem with heq | hmem2
    · subst heq
      have hany : (original.any fun x => !(Row.keys r).contains x) = true := by
        rw [List.any_eq_true]
        exact ⟨c, hc, by rw [hkeys]; rfl⟩
      simp only [upsertLoop, upsertRowStep]
      rw [if_pos hany]
    · cases o with
      | pystr s => simp [PyObj.isRow] at hallr
      | row r0 =>
        cases hstep : (upsertRowStep schema tname original effective serials fu t tr
            (PyObj.row r0)).2 with
        | next t1 tr1 =>
          simp only [upsertLoop]
          rw [hstep]
          exact ih t1 tr1 hallr.2 ⟨r, hmem2, c, hc, hkeys⟩
        | stop res t1 tr1 =>
          have hres := upsertRowStep_row_stop schema tname original effective serials fu
            t tr r0 res (by rw [hstep]; rfl)
          simp only [upsertLoop]
          rw [hstep]
          exact hres

/-- C5: unique-column resolution in `upsert_data`: a caller-supplied
non-empty `unique_columns` (string or list) is used as-is, the
primary-key columns are substituted only when the caller supplies
none, and if a caller-supplied column is absent from a row's own
column set the whole call fails (returns the failure value) instead of
proceeding. -/
theorem upsert_unique_resolution :
    (∀ pk s, resolveUnique (normalizeUnique (UniqueArg.strArg s)) pk = [s]) ∧
    (∀ pk l, l ≠ [] → resolveUnique (normalizeUnique (UniqueArg.listArg l)) pk = l) ∧
    (∀ pk, resolveUnique (normalizeUnique UniqueArg.noneArg) pk = pk) ∧
    (∀ t table_name objs u fu r c,
        objs.all PyObj.isRow = true → PyObj.row r ∈ objs →
        c ∈ normalizeUnique u → (Row.keys r).contains c = false →
        (upsert_data t table_name DTag.dictT (UData.dictList objs) u fu).result =
          UpsertResult.ret false) := by
  refine ⟨fun pk s => rfl, ?_, fun pk => rfl, ?_⟩
  · intro pk l h
    cases l with
    | nil => exact absurd rfl h
    | cons a as => rfl
  · intro t table_name objs u fu r c hall hmem hc hkeys
    have hne : objs ≠ [] := List.ne_nil_of_mem hmem
    unfold upsert_data
    rw [if_neg (by simp [isEmptyUData, hne])]
    simp only [hall, if_true]
    exact upsertLoop_missing_unique_fails (splitTableSchema table_name).1
      (splitTableSchema table_name).2 (normalizeUnique u)
      (resolveUnique (normalizeUnique u) t.pkCols) t.serialCols fu objs t
      ((if (normalizeUnique u).isEmpty then [Eff.introspectPK] else []) ++
        [Eff.introspectSerial, Eff.connect]) hall ⟨r, hmem, c, hc, hkeys⟩

/-- C5 witness: a caller-supplied unique column `id` absent from the
row's columns makes the call return `False`. -/
theorem upsert_unique_resolution_witness :
    (upsert_data ⟨[], [], [], [], []⟩ "t" DTag.dictT
      (UData.dictList [PyObj.row [("a", Val.int 1)]]) (UniqueArg.listArg ["id"])
      true).result = UpsertResult.ret false :=
  upsert_unique_resolution.2.2.2 ⟨[], [], [], [], []⟩ "t" [PyObj.row [("a", Val.int 1)]]
    (UniqueArg.listArg ["id"]) true [("a", Val.int 1)] "id" rfl (by simp)
    (by simp [normalizeUnique]) rfl

/-- C6: the batched insert is atomic: whenever the in-transaction
`executemany` fails on some row (constraint violation or other driver
error), the call returns `False` and the table is exactly its state
before the call — no subset of the batch is committed.  This holds for
the list-of-dicts branch and for the dataframe branches, which share
the same transaction pattern. -/
theorem insert_batch_atomic :
    (∀ t data u r0 rest values msg,
        data.filterMap PyObj.asRow = r0 :: rest →
        data.all PyObj.isRow = true →
        buildValues (Row.keys r0) (r0 :: rest) = some values →
        execMany (conflictPolicyOf u) (Row.keys r0) t values = Except.error msg →
        insert_data_dict t data u = ⟨InsResult.ret false, t⟩) ∧
    (∀ t f u msg,
        execMany (conflictPolicyOf u) f.cols t f.frows = Except.error msg →
        insert_data_frame t f u = ⟨InsResult.ret false, t⟩) := by
  constructor
  · intro t data u r0 rest values msg hfm hall hbv hexec
    have hne : data ≠ [] := by
      intro h
      subst h
      simp at hfm
    unfold insert_data_dict
    rw [if_neg (by simp [hall, hne])]
    simp only [hfm, hbv, hexec]
  · intro t f u msg hexec
    unfold insert_data_frame
    rw [hexec]

/-- C6 witness: a two-row batch whose second row violates NOT NULL
leaves the table unchanged and returns `False`. -/
theorem insert_batch_atomic_witness :
    insert_data_dict ⟨[], ["v"], [], [], []⟩
        [PyObj.row [("v", Val.int 1)], PyObj.row [("v", Val.null)]] UniqueArg.noneArg =
      ⟨InsResult.ret false, ⟨[], ["v"], [], [], []⟩⟩ :=
  insert_batch_atomic.1 ⟨[], ["v"], [], [], []⟩
    [PyObj.row [("v", Val.int 1)], PyObj.row [("v", Val.null)]] UniqueArg.noneArg
    [("v", Val.int 1)] [[("v", Val.null)]] [[Val.int 1], [Val.null]] notNullMsg
    rfl rfl rfl rfl

/-- C4 amended: the DICT branch of `insert_data` performs no
column-homogeneity check.  If some row lacks a column of the first
row's column set, the call dies with an uncaught `KeyError` raised
while the value tuples are built — before any connection or statement
— and no rows are inserted.  Otherwise the call proceeds using exactly
the first row's column set, silently ignoring extra keys in later
rows; no ValidationError-style rejection exists. -/
theorem insert_hetero_no_validation :
    (∀ t data u r0 rest,
        data.filterMap PyObj.asRow = r0 :: rest →
        data.all PyObj.isRow = true →
        (∃ r ∈ r0 :: rest, ∃ c ∈ Row.keys r0, r.lookup c = none) →
        insert_data_dict t data u = ⟨InsResult.keyError, t⟩) ∧
    (∀ t data u r0 rest values,
        data.filterMap PyObj.asRow = r0 :: rest →
        data.all PyObj.isRow = true →
        buildValues (Row.keys r0) (r0 :: rest) = some values →
        insert_data_dict t data u =
          match execMany (conflictPolicyOf u) (Row.keys r0) t values with
          | Except.ok t1 => ⟨InsResult.ret true, t1⟩
          | Except.error _ => ⟨InsResult.ret false, t⟩) := by
  constructor
  · intro t data u r0 rest hfm hall hex
    have hbv : buildValues (Row.keys r0) (r0 :: rest) = none :=
      (buildValues_eq_none_iff _ _).mpr hex
    have hne : data ≠ [] := by
      intro h
      subst h
      simp at hfm
    unfold insert_data_dict
    rw [if_neg (by simp [hall, hne])]
    simp only [hfm, hbv]
  · intro t data u r0 rest values hfm hall hbv
    have hne : data ≠ [] := by
      intro h
      subst h
      simp at hfm
    unfold insert_data_dict
    rw [if_neg (by simp [hall, hne])]
    simp only [hfm, hbv]

/-- C4 witness: the second row lacks the first row's column `a`, so
the call raises `KeyError` and the table is unchanged. -/
theorem insert_hetero_no_validation_witness :
    insert_data_dict ⟨[], [], [], [], []⟩
        [PyObj.row [("a", Val.int 1)], PyObj.row [("b", Val.int 2)]] UniqueArg.noneArg =
      ⟨InsResult.keyError, ⟨[], [], [], [], []⟩⟩ :=
  insert_hetero_no_validation.1 ⟨[], [], [], [], []⟩
    [PyObj.row [("a", Val.int 1)], PyObj.row [("b", Val.int 2)]] UniqueArg.noneArg
    [("a", Val.int 1)] [[("b", Val.int 2)]] rfl rfl
    ⟨[("b", Val.int 2)], by simp, "a", by simp [Row.keys], rfl⟩

end Bakky
